import Mathlib

/-!
Verification development for the Shannon pentest orchestrator.

Shallow embedding of:
- the pre-recon wave scheduler (src/phases/pre-recon.js),
- the retry/validate/checkpoint orchestrator (src/ai/claude-executor.js),
- the session progress update and agent selection (shannon.mjs, src/session-manager.js),
- the SIGINT handler (shannon.mjs).

External effects (subprocess execution, the LLM stream, git snapshots) are modelled as
explicit inputs (outcome-valued environments) and as event traces; JS `Promise.all`
settles results in argument-position order regardless of completion order, so a wave is
embedded as an order-preserving aggregation over its operation list.
-/

namespace Shannon

/-- One wave member result, as produced by `runTerminalScan` in src/phases/pre-recon.js:
`{ tool, output, status, duration }` with status one of success, failed, skipped. -/
structure ToolScanResult where
  tool : String
  output : String
  status : String
  duration : Nat
deriving DecidableEq, Repr

/-- Outcome of the external process behind one tool invocation (the part of
`runTerminalScan` that talks to the OS): the subprocess either returns stdout after some
duration, or throws (non-zero exit or spawn failure) with an error summary, or — for the
schemathesis branch only — the scan is internally skipped with a message (no schemas
directory or no schema files, lines 85-92 of src/phases/pre-recon.js). -/
inductive ToolOutcome where
  | ok (stdout : String) (duration : Nat)
  | err (summary : String) (duration : Nat)
  | skip (msg : String) (duration : Nat)
deriving DecidableEq, Repr

/-- Modelled from the spec: `handleToolError` lives in src/error-handling.js, which is not
in the source snapshot; the spec says a thrown error or non-zero external-process exit
"converts to `{status: failed, output: errorSummary}`". -/
def handleToolError (tool : String) (summary : String) (duration : Nat) : ToolScanResult :=
  { tool := tool, output := summary, status := "failed", duration := duration }

/-- `runTerminalScan` (src/phases/pre-recon.js lines 17-137). Every per-tool success case
returns `{ tool, output: result.stdout, status: success, duration }`; every thrown error
reaches the shared catch which returns `handleToolError(tool, error)`; the schemathesis
no-schema branches return a skipped result. The subprocess itself is the `outcome`
input. -/
def runTerminalScan (tool : String) (outcome : ToolOutcome) : ToolScanResult :=
  match outcome with
  | .ok stdout d => { tool := tool, output := stdout, status := "success", duration := d }
  | .skip msg d => { tool := tool, output := msg, status := "skipped", duration := d }
  | .err summary d => handleToolError tool summary d

/-- The availability flags consulted by the two waves (`toolAvailability` as produced by
src/tool-checker.js; nmap, subfinder and whatweb are probed as well but the waves run
them unconditionally, so only the five gating flags are modelled). -/
structure ToolAvailability where
  naabu : Bool
  schemathesis : Bool
  httpx : Bool
  nuclei : Bool
  sqlmap : Bool
deriving DecidableEq, Repr

/-- `{ tool, output: 'Tool not available', status: 'skipped', duration: 0 }` -/
def skippedNA (tool : String) : ToolScanResult :=
  { tool := tool, output := "Tool not available", status := "skipped", duration := 0 }

/-- `{ tool, output: 'Skipped (pipeline testing mode)', status: 'skipped', duration: 0 }` -/
def skippedPipeline (tool : String) : ToolScanResult :=
  { tool := tool, output := "Skipped (pipeline testing mode)", status := "skipped", duration := 0 }

/-- Placeholder for a JS `undefined` read of `results[resultIndex]` past the end of the
settled-results array; unreachable in `runPreReconWave2` because the operations array
length always equals the number of available tools. -/
def undefinedResult (tool : String) : ToolScanResult :=
  { tool := tool, output := "undefined", status := "undefined", duration := 0 }

/-- The Wave-2 operations array (src/phases/pre-recon.js lines 217-232): one
`runTerminalScan` push per available tool, in the fixed textual order. Represented by
the scheduled tool names; `Promise.all` keeps this order. -/
def wave2Ops (avail : ToolAvailability) : List String :=
  (if avail.schemathesis then ["schemathesis"] else []) ++
  (if avail.httpx then ["httpx"] else []) ++
  (if avail.nuclei then ["nuclei"] else []) ++
  (if avail.sqlmap then ["sqlmap"] else [])

/-- The four Wave-2 tool names in scheduling order. -/
def wave2Tools : List String := ["schemathesis", "httpx", "nuclei", "sqlmap"]

/-- The availability flag Wave 2 consults for a given tool name. -/
def wave2Flag (avail : ToolAvailability) : String → Bool
  | "schemathesis" => avail.schemathesis
  | "httpx" => avail.httpx
  | "nuclei" => avail.nuclei
  | "sqlmap" => avail.sqlmap
  | _ => false

/-- `runPreReconWave2` (src/phases/pre-recon.js lines 206-272). `env` gives the external
outcome of each tool subprocess. Returns the response object as an association list in
key-insertion order. Mirrors the source exactly: the pipeline-testing early return, the
no-tools early return, the conditional pushes, `Promise.all` (argument-order result
array), and the `resultIndex` walk that maps results back to named properties. -/
def runPreReconWave2 (avail : ToolAvailability) (pipelineTestingMode : Bool)
    (env : String → ToolOutcome) : List (String × ToolScanResult) :=
  if pipelineTestingMode then
    [("schemathesis", skippedPipeline "schemathesis")]
  else
    let ops := wave2Ops avail
    if ops.length = 0 then
      [("schemathesis", skippedNA "schemathesis")]
    else
      let results := ops.map (fun t => runTerminalScan t (env t))
      let p1 :=
        if avail.schemathesis then (results.getD 0 (undefinedResult "schemathesis"), 0 + 1)
        else (skippedNA "schemathesis", 0)
      let p2 :=
        if avail.httpx then (results.getD p1.2 (undefinedResult "httpx"), p1.2 + 1)
        else (skippedNA "httpx", p1.2)
      let p3 :=
        if avail.nuclei then (results.getD p2.2 (undefinedResult "nuclei"), p2.2 + 1)
        else (skippedNA "nuclei", p2.2)
      let p4 :=
        if avail.sqlmap then (results.getD p3.2 (undefinedResult "sqlmap"), p3.2 + 1)
        else (skippedNA "sqlmap", p3.2)
      [("schemathesis", p1.1), ("httpx", p2.1), ("nuclei", p3.1), ("sqlmap", p4.1)]

/-- A settled Wave-1 array element: the heterogeneous `Promise.all` array of
`runPreReconWave1` holds tool-scan results and (when not in blackbox mode) the AI
code-analysis agent result of type `α`; `undef` models a JS `undefined` read of a
missing index. -/
inductive Wave1Value (α : Type) where
  | undef
  | scan (r : ToolScanResult)
  | agent (a : α)
deriving DecidableEq, Repr

/-- The Wave-1 destructured record `{ nmap, subfinder, whatweb, naabu, codeAnalysis }`. -/
structure Wave1Results (α : Type) where
  nmap : Wave1Value α
  subfinder : Wave1Value α
  whatweb : Wave1Value α
  naabu : Wave1Value α
  codeAnalysis : Wave1Value α
deriving DecidableEq, Repr

/-- `{ tool: 'code-analysis', output: 'Skipped (blackbox mode)', status: 'skipped', duration: 0 }` -/
def blackboxSkipCA : ToolScanResult :=
  { tool := "code-analysis", output := "Skipped (blackbox mode)", status := "skipped", duration := 0 }

/-- `runPreReconWave1` (src/phases/pre-recon.js lines 174-202), scanning branch (the
pipeline-testing branch, lines 148-172, returns plain strings for the tool slots and is
outside every claim). Operations are pushed in order: nmap, subfinder, whatweb, then the
naabu slot (a real scan when available, otherwise an already-resolved skipped result —
so the slot is always occupied), then the code-analysis agent unless blackbox mode.
`Promise.all` keeps argument order, and the source destructures the settled array
positionally as `[nmap, subfinder, whatweb, naabu, codeAnalysis]`; the return overrides
`codeAnalysis` with a blackbox skip object when in blackbox mode (line 202). `caRes` is
the settled value of the code-analysis member (the agent invoker is external here). -/
def runPreReconWave1 {α : Type} (avail : ToolAvailability) (isBlackbox : Bool)
    (env : String → ToolOutcome) (caRes : α) : Wave1Results α :=
  let operations : List (Wave1Value α) :=
    [Wave1Value.scan (runTerminalScan "nmap" (env "nmap")),
     Wave1Value.scan (runTerminalScan "subfinder" (env "subfinder")),
     Wave1Value.scan (runTerminalScan "whatweb" (env "whatweb")),
     Wave1Value.scan
       (if avail.naabu then runTerminalScan "naabu" (env "naabu") else skippedNA "naabu")] ++
    (if isBlackbox then [] else [Wave1Value.agent caRes])
  let results := operations
  { nmap := results.getD 0 Wave1Value.undef,
    subfinder := results.getD 1 Wave1Value.undef,
    whatweb := results.getD 2 Wave1Value.undef,
    naabu := results.getD 3 Wave1Value.undef,
    codeAnalysis :=
      if isBlackbox then Wave1Value.scan blackboxSkipCA else results.getD 4 Wave1Value.undef }

/-- Fixture environment for the concrete wave witnesses: nuclei's subprocess throws,
every other tool returns stdout. -/
def c4env : String → ToolOutcome :=
  fun t => if t = "nuclei" then ToolOutcome.err "boom" 2 else ToolOutcome.ok ("out-" ++ t) 1

/-! ## Retry orchestrator (src/ai/claude-executor.js) -/

/-- A JS error value as it flows through the executor. `errType` is the `PentestError`
category (billing, validation, ...) or the constructor name for plain errors.
`retryableFlag` — modelled from the spec: `isRetryableError` lives in
src/error-handling.js, which is not in the source snapshot; the spec says errors are
"classified retryable or not by inspecting error signal/category", and every
`PentestError` constructed in the sources carries an explicit retryable boolean
(e.g. `new PentestError('Session limit reached', 'billing', false)`), so the
classification is carried on the error value. -/
structure JsError where
  message : String
  errType : String
  retryableFlag : Bool
deriving DecidableEq, Repr

/-- Modelled from the spec: `isRetryableError` (src/error-handling.js, absent from the
snapshot) returns the error's retryable classification. -/
def isRetryableError (e : JsError) : Bool := e.retryableFlag

/-- One message of the streamed agent session consumed by `runClaudePrompt`
(src/ai/claude-executor.js lines 230-415). Only the shapes the control flow inspects
are distinguished; `cost` stands for the result message's `total_cost_usd` (in abstract
integral cost units — the claims only add and compare costs). -/
inductive StreamMsg where
  | assistant (content : String)
  | resultMsg (res : String) (cost : Nat)
  | systemInit
  | userEcho
  | toolUse
  | toolResult
  | otherMsg
deriving DecidableEq, Repr

/-- JS `String.prototype.includes` on lists: does `pat` occur inside the list? -/
def listContainsSub (pat : List Nat) : List Nat → Bool
  | [] => pat.isEmpty
  | c :: rest => pat.isPrefixOf (c :: rest) || listContainsSub pat rest

/-- ASCII lowercasing of one code point (the executor's scan targets are ASCII). -/
def lowerCode (n : Nat) : Nat := if 65 ≤ n && n ≤ 90 then n + 32 else n

/-- A string as its list of code points. -/
def strCodes (s : String) : List Nat := s.data.map Char.toNat

/-- JS `content.toLowerCase().includes(pat)` at the code-point level, with ASCII
lowercasing (every substring the executor scans for is ASCII). -/
def jsIncludesLower (content pat : String) : Bool :=
  listContainsSub (strCodes pat) ((strCodes content).map lowerCode)

/-- Mutable locals of `runClaudePrompt` that the claims observe: turn counter, collected
assistant contents, API-error flag, `totalCost`, `partialCost` (named `partCost` here),
and `recordedCost`, the amount this call has added to the global `costResults.total`
(src/ai/claude-executor.js lines 401-409). -/
structure PromptState where
  turnCount : Nat
  messages : List String
  apiErrorDetected : Bool
  totalCost : Nat
  partCost : Nat
  recordedCost : Nat
deriving DecidableEq, Repr

/-- The state in which `runClaudePrompt` starts. -/
def initialPromptState : PromptState :=
  { turnCount := 0, messages := [], apiErrorDetected := false,
    totalCost := 0, partCost := 0, recordedCost := 0 }

/-- How the message loop ended: final locals, an exception thrown out of the loop (the
session-limit `PentestError`), and the `result` captured from a result message. -/
structure StreamEnd where
  st : PromptState
  thrown : Option JsError
  resultVal : Option String
deriving DecidableEq, Repr

/-- The trigger substring for the session/quota-exhausted short-circuit
(src/ai/claude-executor.js line 299). -/
def sessionLimitSignal : String := "session limit reached"

/-- The `for await` message loop of `runClaudePrompt` (src/ai/claude-executor.js lines
230-415). An assistant message increments the turn counter, is pushed onto `messages`,
then is scanned (lowercased): containing the session-limit signal throws
`PentestError('Session limit reached', 'billing', false)`; containing "api error" or
"terminated" sets `apiErrorDetected`. A result message captures the result, sets
`totalCost` and `partialCost` to its cost, adds that cost to `costResults.total`
(tracked in `recordedCost`), and breaks. All other message kinds only log. -/
def processStream : List StreamMsg → PromptState → StreamEnd
  | [], st => { st := st, thrown := none, resultVal := none }
  | msg :: rest, st =>
    match msg with
    | .assistant c =>
      let st1 := { st with turnCount := st.turnCount + 1, messages := st.messages ++ [c] }
      if jsIncludesLower c sessionLimitSignal then
        { st := st1, thrown := some ⟨"Session limit reached", "billing", false⟩,
          resultVal := none }
      else
        let st2 :=
          if jsIncludesLower c "api error" || jsIncludesLower c "terminated" then
            { st1 with apiErrorDetected := true }
          else st1
        processStream rest st2
    | .resultMsg r c =>
      { st := { st with totalCost := c, partCost := c, recordedCost := st.recordedCost + c },
        thrown := none, resultVal := some r }
    | _ => processStream rest st

/-- The value `runClaudePrompt` resolves with (src/ai/claude-executor.js lines 460-472
on success, 554-562 on a caught error). `partCost` is the JS `partialCost`; the caught-
error object has no `apiErrorDetected`/`partialCost` fields, and JS reads of them yield
`undefined` (falsy), embedded as `false`/`0`; `retryable` is absent (`none`) on the
success object. Wall-clock `duration` and the log-file path are external effects and not
modelled. -/
structure AttemptResult where
  success : Bool
  resultStr : Option String
  errorMsg : Option String
  turns : Nat
  cost : Nat
  partCost : Nat
  retryable : Option Bool
  apiErrorDetected : Bool
deriving DecidableEq, Repr

/-- One attempt's external environment: the message stream the agent SDK yields, an
error the stream iteration itself raises after those messages (if any), and whether the
per-agent validator (AGENT_VALIDATORS, src/constants.js) accepts the workspace this
attempt produced. -/
structure AttemptEnv where
  stream : List StreamMsg
  streamError : Option JsError
  validatorPasses : Bool
deriving DecidableEq, Repr

/-- `runClaudePrompt`'s observable outcome: the resolved `AttemptResult` plus the amount
added to the global `costResults.total` during the call. -/
structure PromptRun where
  res : AttemptResult
  recorded : Nat
deriving DecidableEq, Repr

/-- `runClaudePrompt` (src/ai/claude-executor.js lines 108-564). The whole body sits in
one try/catch whose catch returns a `success: false` object — the function never
rejects. After the loop: a stream-iteration error (re-thrown at line 417) reaches the
same catch; otherwise, if no result message arrived, `result` falls back to the joined
assistant messages (line 456), and the success object is returned with the accumulated
costs and the `apiErrorDetected` flag. -/
def runClaudePrompt (env : AttemptEnv) : PromptRun :=
  let e := processStream env.stream initialPromptState
  match e.thrown with
  | some err =>
    { res := { success := false, resultStr := none, errorMsg := some err.message,
               turns := e.st.turnCount, cost := e.st.partCost, partCost := 0,
               retryable := some (isRetryableError err), apiErrorDetected := false },
      recorded := e.st.recordedCost }
  | none =>
    match e.resultVal with
    | some r =>
      { res := { success := true, resultStr := some r, errorMsg := none,
                 turns := e.st.turnCount, cost := e.st.totalCost, partCost := e.st.totalCost,
                 retryable := none, apiErrorDetected := e.st.apiErrorDetected },
        recorded := e.st.recordedCost }
    | none =>
      match env.streamError with
      | some err =>
        { res := { success := false, resultStr := none, errorMsg := some err.message,
                   turns := e.st.turnCount, cost := e.st.partCost, partCost := 0,
                   retryable := some (isRetryableError err), apiErrorDetected := false },
          recorded := e.st.recordedCost }
      | none =>
        let res :=
          if e.st.messages.length > 0 then some (String.intercalate "\n" e.st.messages)
          else none
        { res := { success := true, resultStr := res, errorMsg := none,
                   turns := e.st.turnCount, cost := e.st.totalCost, partCost := e.st.totalCost,
                   retryable := none, apiErrorDetected := e.st.apiErrorDetected },
          recorded := e.st.recordedCost }

/-- `validateAgentOutput` (src/ai/claude-executor.js lines 56-100), outside the
relaxed-validation override (a text-only-adapter mode no claim touches): fails when the
attempt was unsuccessful or produced a falsy `result`; succeeds when the agent has no
registered validator; otherwise defers to the validator's verdict on the workspace (its
own exceptions are caught and turned into a false verdict, so the verdict input already
covers them). -/
def validateAgentOutput (r : AttemptResult) (hasValidator : Bool)
    (validatorPasses : Bool) : Bool :=
  if !r.success || r.resultStr.getD "" = "" then false
  else if !hasValidator then true
  else validatorPasses

/-- `maxRetries` (src/ai/claude-executor.js line 575). -/
def maxRetries : Nat := 3

/-- Externally visible steps of one `runClaudePromptWithRetry` invocation:
`createGitCheckpoint` before an attempt, the `runClaudePrompt` execution itself, the
cost it adds to `costResults.total`, each `rollbackGitWorkspace(reason)`, and
`commitGitSuccess`. -/
inductive OrchEvent where
  | checkpoint (attempt : Nat)
  | execute (attempt : Nat)
  | recordCost (amount : Nat)
  | rollback (reason : String)
  | commitDone
deriving DecidableEq, Repr

/-- How `runClaudePromptWithRetry` finishes: return the successful result, throw a JS
error, or — when control reaches `throw lastError` with `lastError` never assigned —
throw `undefined`. -/
inductive RetryOutcome where
  | ok (r : AttemptResult)
  | fatalError (e : JsError)
  | fatalUndefined
deriving DecidableEq, Repr

/-- `throw lastError` (src/ai/claude-executor.js line 723): throws the recorded error,
or `undefined` when no iteration ever assigned `lastError`. -/
def throwLast : Option JsError → RetryOutcome
  | some e => RetryOutcome.fatalError e
  | none => RetryOutcome.fatalUndefined

/-- The fatal classified error raised when output validation fails on the final attempt
(src/ai/claude-executor.js lines 667-672): a non-retryable `PentestError` of type
validation. -/
def validationExhaustedError (description : String) : JsError :=
  { message := "Agent " ++ description ++ " failed output validation after " ++
      toString maxRetries ++ " attempts. Required deliverable files were not created.",
    errType := "validation", retryableFlag := false }

/-- The `lastError` recorded when an attempt completes but validation fails with
attempts remaining (src/ai/claude-executor.js lines 654-659): a plain `Error`. Its
retryable classification is never consulted on any path (the value is only ever
re-thrown as `lastError`), so the flag here is an unobservable placeholder. -/
def validationFailedError (apiErrorDetected : Bool) : JsError :=
  if apiErrorDetected then
    { message := "API Error: terminated with validation failure", errType := "Error",
      retryableFlag := false }
  else
    { message := "Output validation failed", errType := "Error", retryableFlag := false }

/-- The attempt loop of `runClaudePromptWithRetry` (src/ai/claude-executor.js lines
588-721), over the remaining attempt numbers. Each iteration: checkpoint, execute
(`runClaudePrompt` — which never throws), then

* `result.success` and validation passes → `commitGitSuccess`, return the result;
* `result.success` and validation fails → set `lastError`; with attempts remaining,
  `rollbackGitWorkspace('validation failure')` and continue; on the last attempt, throw
  the validation `PentestError`, which the very same iteration's catch receives: it is
  non-retryable, so `rollbackGitWorkspace('non-retryable error cleanup')` and re-throw
  (the catch's retryable branches are embedded too, though this error never takes them);
* `!result.success` → the source has no branch for this case: the failed result is
  discarded, `lastError` stays as it was, no rollback happens, and the loop simply
  proceeds to the next attempt.

After the loop, `throw lastError`. The audit-session calls and the backoff sleep are
external effects with no bearing on the claims; the text-only pre-recon deliverable
backfill (lines 603-612) is gated on an adapter mode outside every claim. -/
def retryGo (description : String) (hasValidator : Bool) (envs : Nat → AttemptEnv) :
    List Nat → Option JsError → List OrchEvent × RetryOutcome
  | [], lastError => ([], throwLast lastError)
  | attempt :: rest, lastError =>
    let run := runClaudePrompt (envs attempt)
    let evts : List OrchEvent :=
      [OrchEvent.checkpoint attempt, OrchEvent.execute attempt, OrchEvent.recordCost run.recorded]
    if run.res.success then
      if validateAgentOutput run.res hasValidator (envs attempt).validatorPasses then
        (evts ++ [OrchEvent.commitDone], RetryOutcome.ok run.res)
      else
        let lastError1 := some (validationFailedError run.res.apiErrorDetected)
        if attempt < maxRetries then
          let tail := retryGo description hasValidator envs rest lastError1
          (evts ++ [OrchEvent.rollback "validation failure"] ++ tail.1, tail.2)
        else
          let e := validationExhaustedError description
          if !(isRetryableError e) then
            (evts ++ [OrchEvent.rollback "non-retryable error cleanup"],
              RetryOutcome.fatalError e)
          else if attempt < maxRetries then
            let tail := retryGo description hasValidator envs rest (some e)
            (evts ++ [OrchEvent.rollback "retryable error cleanup"] ++ tail.1, tail.2)
          else
            (evts ++ [OrchEvent.rollback "final failure cleanup"], throwLast (some e))
    else
      let tail := retryGo description hasValidator envs rest lastError
      (evts ++ tail.1, tail.2)

/-- `runClaudePromptWithRetry` (src/ai/claude-executor.js lines 574-724): the attempt
loop for attempts 1..maxRetries with `lastError` initially unassigned. -/
def runClaudePromptWithRetry (description : String) (hasValidator : Bool)
    (envs : Nat → AttemptEnv) : List OrchEvent × RetryOutcome :=
  retryGo description hasValidator envs [1, 2, 3] none

/-- Sum of the amounts this orchestration added to `costResults.total`. -/
def recordedTotal (evts : List OrchEvent) : Nat :=
  (evts.map fun e => match e with | OrchEvent.recordCost n => n | _ => 0).sum

/-- The attempt numbers that were actually executed, in order. -/
def executedAttempts (evts : List OrchEvent) : List Nat :=
  evts.filterMap fun e => match e with | OrchEvent.execute i => some i | _ => none

/-- Fixture: an attempt whose execution succeeds with a result message of cost 5. -/
def envExecOk : AttemptEnv :=
  { stream := [StreamMsg.assistant "working", StreamMsg.resultMsg "done" 5],
    streamError := none, validatorPasses := false }

/-- Fixture: an attempt whose stream iteration raises a non-retryable error. -/
def envExecFailNonRetryable : AttemptEnv :=
  { stream := [],
    streamError := some ⟨"Invalid API key", "ProcessError", false⟩,
    validatorPasses := true }

/-- Fixture: an attempt whose streamed assistant content reports the session limit. -/
def envSessionLimit : AttemptEnv :=
  { stream := [StreamMsg.assistant "ERROR: Session limit reached - upgrade plan"],
    streamError := none, validatorPasses := true }

/-! ## Session state machine (shannon.mjs, src/session-manager.js) -/

/-- An agent catalog entry. Only the name participates in any claim; the descriptor's
displayName/phase/validator fields are carried elsewhere and never consulted here. -/
structure Agent where
  name : String
deriving DecidableEq, Repr

/-- Modelled from the spec: the fixed ordered catalog `AGENTS` lives in
src/session-manager.js, which is not in the source snapshot. The spec fixes the order as
`[pre-recon, recon, A1..A5, E1..E5, report]`, and shannon.mjs (startPhase derivation,
lines 201-205) names the five analysis agents `injection-vuln, xss-vuln, auth-vuln,
ssrf-vuln, authz-vuln` and the five exploitation agents `injection-exploit, xss-exploit,
auth-exploit, ssrf-exploit, authz-exploit`. -/
def AGENTS : List Agent :=
  [⟨"pre-recon"⟩, ⟨"recon"⟩,
   ⟨"injection-vuln"⟩, ⟨"xss-vuln"⟩, ⟨"auth-vuln"⟩, ⟨"ssrf-vuln"⟩, ⟨"authz-vuln"⟩,
   ⟨"injection-exploit"⟩, ⟨"xss-exploit"⟩, ⟨"auth-exploit"⟩, ⟨"ssrf-exploit"⟩,
   ⟨"authz-exploit"⟩, ⟨"report"⟩]

/-- The session fields the claims observe (`completedAgents`, `failedAgents`,
`checkpoints` as a name→commit association, `status`); id/target/timing/cost fields are
never consulted by the embedded operations. -/
structure Session where
  completedAgents : List String
  failedAgents : List String
  checkpoints : List (String × String)
  status : String
deriving DecidableEq, Repr

/-- Modelled from the spec: `getNextAgent` lives in src/session-manager.js, which is not
in the source snapshot; the spec says it "scans the fixed ordered catalog of agents,
returns the first whose name is not in `completedAgents`; returns null when all are
completed". -/
def getNextAgent (s : Session) : Option Agent :=
  AGENTS.find? fun a => !(s.completedAgents.contains a.name)

/-- JS `[...new Set(l)]` with bounded fuel (the filter strictly shrinks the list, so
fuel `l.length` always suffices): keeps the first occurrence of each element, in
insertion order. -/
def jsSetDedupAux : Nat → List String → List String
  | 0, _ => []
  | _ + 1, [] => []
  | n + 1, x :: xs => x :: jsSetDedupAux n (xs.filter fun y => y ≠ x)

/-- JS `[...new Set(l)]`. -/
def jsSetDedup (l : List String) : List String := jsSetDedupAux l.length l

/-- JS object spread update `{...m, [k]: v}`: overwrites an existing key in place,
otherwise appends the new key. -/
def objectSpreadSet (m : List (String × String)) (k v : String) : List (String × String) :=
  if m.any fun p => p.1 = k then m.map fun p => if p.1 = k then (k, v) else p
  else m ++ [(k, v)]

/-- `updateSessionProgress` (shannon.mjs lines 154-173): the update object merged into
the session — `completedAgents: [...new Set([...session.completedAgents, agentName])]`,
`failedAgents: session.failedAgents.filter(name => name !== agentName)`, status
in-progress, and, only when a commit hash is supplied,
`checkpoints: {...session.checkpoints, [agentName]: commitHash}`. The persistence call
(`updateSession`) and its logged-only failure are external effects. -/
def updateSessionProgress (s : Session) (agentName : String)
    (commitHash : Option String) : Session :=
  { completedAgents := jsSetDedup (s.completedAgents ++ [agentName]),
    failedAgents := s.failedAgents.filter fun name => name ≠ agentName,
    checkpoints :=
      match commitHash with
      | some h => objectSpreadSet s.checkpoints agentName h
      | none => s.checkpoints,
    status := "in-progress" }

/-- Fixture session: pre-recon and recon completed. -/
def sessionExample : Session :=
  { completedAgents := ["pre-recon", "recon"], failedAgents := ["xss-vuln"],
    checkpoints := [("pre-recon", "c0ffee")], status := "in-progress" }

/-! ## Signal handlers (shannon.mjs) -/

/-- An action the shannon.mjs process-level code can take; `rollbackWorkspace` is the
step a cleanup-performing handler would contain (`rollbackGitWorkspace`). -/
inductive MainStep where
  | logLine (msg : String)
  | rollbackWorkspace (reason : String)
  | exitProcess (code : Nat)
deriving DecidableEq, Repr

/-- The SIGINT handler body (shannon.mjs lines 56-60), step by step: it logs
"⚠️ Received SIGINT, cleaning up..." and immediately calls `process.exit(0)` — nothing
else stands between the two statements. -/
def sigintHandlerSteps : List MainStep :=
  [MainStep.logLine "⚠️ Received SIGINT, cleaning up...", MainStep.exitProcess 0]

/-- The SIGTERM handler body (shannon.mjs lines 62-66). -/
def sigtermHandlerSteps : List MainStep :=
  [MainStep.logLine "⚠️ Received SIGTERM, cleaning up...", MainStep.exitProcess 0]

end Shannon

namespace Shannon

/-- With every Wave-2 tool available, the response binds each name to its own scan, in
scheduling order. -/
theorem wave2_all_available (nb : Bool) (env : String → ToolOutcome) :
    runPreReconWave2 ⟨nb, true, true, true, true⟩ false env =
      [("schemathesis", runTerminalScan "schemathesis" (env "schemathesis")),
       ("httpx", runTerminalScan "httpx" (env "httpx")),
       ("nuclei", runTerminalScan "nuclei" (env "nuclei")),
       ("sqlmap", runTerminalScan "sqlmap" (env "sqlmap"))] := rfl

/-- With every Wave-2 tool available, looking up any of the four tool names returns that
tool's own scan result (key-based attribution). -/
theorem wave2_lookup_mem (env : String → ToolOutcome) (t : String) (ht : t ∈ wave2Tools) :
    List.lookup t (runPreReconWave2 ⟨true, true, true, true, true⟩ false env) =
      some (runTerminalScan t (env t)) := by
  simp only [wave2Tools, List.mem_cons, List.mem_singleton, List.not_mem_nil,
    or_false] at ht
  rcases ht with rfl | rfl | rfl | rfl <;> rfl

/-- C1: for every invocation of the Wave-2 additional-scanning wave with a non-empty
subset of the optional tools (schemathesis, httpx, nuclei, sqlmap) available, the
returned map binds each available tool name to that tool's own `runTerminalScan` result
and each unavailable tool name to a skipped result — no result is attributed to the
wrong name. Completion order cannot affect this: `Promise.all` settles results in
argument order, which the embedding reflects. -/
theorem claim_C1 (avail : ToolAvailability) (env : String → ToolOutcome)
    (hne : (avail.schemathesis || avail.httpx || avail.nuclei || avail.sqlmap) = true) :
    (List.lookup "schemathesis" (runPreReconWave2 avail false env) =
      some (if avail.schemathesis then runTerminalScan "schemathesis" (env "schemathesis")
            else skippedNA "schemathesis")) ∧
    (List.lookup "httpx" (runPreReconWave2 avail false env) =
      some (if avail.httpx then runTerminalScan "httpx" (env "httpx")
            else skippedNA "httpx")) ∧
    (List.lookup "nuclei" (runPreReconWave2 avail false env) =
      some (if avail.nuclei then runTerminalScan "nuclei" (env "nuclei")
            else skippedNA "nuclei")) ∧
    (List.lookup "sqlmap" (runPreReconWave2 avail false env) =
      some (if avail.sqlmap then runTerminalScan "sqlmap" (env "sqlmap")
            else skippedNA "sqlmap")) := by
  obtain ⟨nb, sc, ht, nu, sq⟩ := avail
  cases sc <;> cases ht <;> cases nu <;> cases sq <;>
    first
      | exact ⟨rfl, rfl, rfl, rfl⟩
      | simp at hne

/-- Witness for C1 at a concrete subset (schemathesis and nuclei available). -/
theorem claim_C1_witness :
    (((⟨true, true, false, true, false⟩ : ToolAvailability).schemathesis ||
      (⟨true, true, false, true, false⟩ : ToolAvailability).httpx ||
      (⟨true, true, false, true, false⟩ : ToolAvailability).nuclei ||
      (⟨true, true, false, true, false⟩ : ToolAvailability).sqlmap) = true) ∧
    ((List.lookup "schemathesis" (runPreReconWave2 ⟨true, true, false, true, false⟩ false c4env) =
      some (if (⟨true, true, false, true, false⟩ : ToolAvailability).schemathesis then
              runTerminalScan "schemathesis" (c4env "schemathesis")
            else skippedNA "schemathesis")) ∧
     (List.lookup "httpx" (runPreReconWave2 ⟨true, true, false, true, false⟩ false c4env) =
      some (if (⟨true, true, false, true, false⟩ : ToolAvailability).httpx then
              runTerminalScan "httpx" (c4env "httpx")
            else skippedNA "httpx")) ∧
     (List.lookup "nuclei" (runPreReconWave2 ⟨true, true, false, true, false⟩ false c4env) =
      some (if (⟨true, true, false, true, false⟩ : ToolAvailability).nuclei then
              runTerminalScan "nuclei" (c4env "nuclei")
            else skippedNA "nuclei")) ∧
     (List.lookup "sqlmap" (runPreReconWave2 ⟨true, true, false, true, false⟩ false c4env) =
      some (if (⟨true, true, false, true, false⟩ : ToolAvailability).sqlmap then
              runTerminalScan "sqlmap" (c4env "sqlmap")
            else skippedNA "sqlmap"))) :=
  ⟨by decide, claim_C1 ⟨true, true, false, true, false⟩ c4env (by decide)⟩

/-- C10: in pipeline-testing mode, or when every Wave-2 tool is unavailable, the Wave-2
response contains only the key schemathesis, bound to a skipped result (so httpx, nuclei
and sqlmap keys are absent); when at least one Wave-2 tool is available, the response
contains all four keys in order. -/
theorem claim_C10 (avail : ToolAvailability) (env : String → ToolOutcome) :
    (runPreReconWave2 avail true env = [("schemathesis", skippedPipeline "schemathesis")]) ∧
    ((skippedPipeline "schemathesis").status = "skipped") ∧
    (avail.schemathesis = false → avail.httpx = false → avail.nuclei = false →
      avail.sqlmap = false →
      runPreReconWave2 avail false env = [("schemathesis", skippedNA "schemathesis")]) ∧
    ((skippedNA "schemathesis").status = "skipped") ∧
    ((avail.schemathesis || avail.httpx || avail.nuclei || avail.sqlmap) = true →
      (runPreReconWave2 avail false env).map Prod.fst =
        ["schemathesis", "httpx", "nuclei", "sqlmap"]) := by
  obtain ⟨nb, sc, ht, nu, sq⟩ := avail
  refine ⟨rfl, rfl, ?_, rfl, ?_⟩ <;>
    cases sc <;> cases ht <;> cases nu <;> cases sq <;> intros <;>
      first
        | rfl
        | simp_all

/-- Witness for C10 at a concrete availability map (only sqlmap available). -/
theorem claim_C10_witness :
    (runPreReconWave2 ⟨false, false, false, false, true⟩ true c4env =
      [("schemathesis", skippedPipeline "schemathesis")]) ∧
    ((⟨false, false, false, false, true⟩ : ToolAvailability).schemathesis ||
     (⟨false, false, false, false, true⟩ : ToolAvailability).httpx ||
     (⟨false, false, false, false, true⟩ : ToolAvailability).nuclei ||
     (⟨false, false, false, false, true⟩ : ToolAvailability).sqlmap) = true ∧
    (runPreReconWave2 ⟨false, false, false, false, true⟩ false c4env).map Prod.fst =
      ["schemathesis", "httpx", "nuclei", "sqlmap"] :=
  ⟨(claim_C10 ⟨false, false, false, false, true⟩ c4env).1, by decide,
    (claim_C10 ⟨false, false, false, false, true⟩ c4env).2.2.2.2 (by decide)⟩

/-- C4: a wave in which one named operation's subprocess throws (or exits non-zero)
while the others succeed still resolves as a total map: the failing tool's entry has
status failed with the error summary as output, each succeeding tool's entry has status
success with its captured output and duration. Additionally, a tool marked unavailable
yields the constant `{status: skipped, output: Tool not available}` entry — for every
environment, hence without its subprocess being scheduled (Wave-1 naabu slot shown).
The embedding is total, reflecting that `runTerminalScan` converts every throw into a
failed result instead of rejecting the joined `Promise.all`. -/
theorem claim_C4 {α : Type} (env : String → ToolOutcome) (caRes : α)
    (f : String) (hf : f ∈ wave2Tools)
    (es : String) (ed : Nat) (o : String → String) (dd : String → Nat)
    (henvf : env f = ToolOutcome.err es ed)
    (henv : ∀ t ∈ wave2Tools, t ≠ f → env t = ToolOutcome.ok (o t) (dd t)) :
    (List.lookup f (runPreReconWave2 ⟨true, true, true, true, true⟩ false env) =
      some ⟨f, es, "failed", ed⟩) ∧
    (∀ t ∈ wave2Tools, t ≠ f →
      List.lookup t (runPreReconWave2 ⟨true, true, true, true, true⟩ false env) =
        some ⟨t, o t, "success", dd t⟩) ∧
    (∀ avail : ToolAvailability, avail.naabu = false →
      (runPreReconWave1 avail false env caRes).naabu = Wave1Value.scan (skippedNA "naabu")) ∧
    (∀ (avail : ToolAvailability) (t : String), t ∈ wave2Tools →
      wave2Flag avail t = false → (wave2Ops avail).length ≠ 0 →
      List.lookup t (runPreReconWave2 avail false env) = some (skippedNA t)) := by
  refine ⟨?_, ?_, ?_, ?_⟩
  · rw [wave2_lookup_mem env f hf, henvf]
    rfl
  · intro t ht hne
    rw [wave2_lookup_mem env t ht, henv t ht hne]
    rfl
  · intro avail hnaabu
    simp [runPreReconWave1, hnaabu]
  · intro avail t ht hflag hops
    obtain ⟨nb, sc, hx, nu, sq⟩ := avail
    simp only [wave2Tools, List.mem_cons, List.mem_singleton, List.not_mem_nil,
      or_false] at ht
    cases sc <;> cases hx <;> cases nu <;> cases sq <;>
      rcases ht with rfl | rfl | rfl | rfl <;>
      first
        | rfl
        | simp_all [wave2Flag, wave2Ops]

/-- Witness for C4: nuclei fails, the other three succeed, in a concrete environment. -/
theorem claim_C4_witness :
    ("nuclei" ∈ wave2Tools) ∧
    (c4env "nuclei" = ToolOutcome.err "boom" 2) ∧
    (∀ t ∈ wave2Tools, t ≠ "nuclei" → c4env t = ToolOutcome.ok ("out-" ++ t) 1) ∧
    ((List.lookup "nuclei" (runPreReconWave2 ⟨true, true, true, true, true⟩ false c4env) =
       some ⟨"nuclei", "boom", "failed", 2⟩) ∧
     (∀ t ∈ wave2Tools, t ≠ "nuclei" →
       List.lookup t (runPreReconWave2 ⟨true, true, true, true, true⟩ false c4env) =
         some ⟨t, "out-" ++ t, "success", 1⟩) ∧
     (∀ avail : ToolAvailability, avail.naabu = false →
       (runPreReconWave1 avail false c4env (0 : Nat)).naabu =
         Wave1Value.scan (skippedNA "naabu")) ∧
     (∀ (avail : ToolAvailability) (t : String), t ∈ wave2Tools →
       wave2Flag avail t = false → (wave2Ops avail).length ≠ 0 →
       List.lookup t (runPreReconWave2 avail false c4env) = some (skippedNA t))) :=
  ⟨by decide, by decide, by decide,
    claim_C4 c4env (0 : Nat) "nuclei" (by decide) "boom" 2
      (fun t => "out-" ++ t) (fun _ => 1) (by decide) (by decide)⟩

/-- A registered validator that rejects makes `validateAgentOutput` fail regardless of
the attempt result. -/
theorem validateAgentOutput_false (r : AttemptResult) :
    validateAgentOutput r true false = false := by
  unfold validateAgentOutput
  split
  · rfl
  · rfl

/-- C2: with a validator that fails on every attempt while each execution reports
success, the orchestrator performs exactly three checkpoint→execute→rollback cycles
(rollback reason `validation failure` twice, then the final iteration's own catch rolls
back with `non-retryable error cleanup`) and raises the fatal classified validation
PentestError; `commitGitSuccess` never runs, so the session's per-agent checkpoint entry
(written by the caller only after a successful return) is never set. -/
theorem claim_C2 (description : String) (envs : Nat → AttemptEnv)
    (hexec : ∀ i, (runClaudePrompt (envs i)).res.success = true)
    (hval : ∀ i, (envs i).validatorPasses = false) :
    ∃ c1 c2 c3,
      runClaudePromptWithRetry description true envs =
        ([OrchEvent.checkpoint 1, OrchEvent.execute 1, OrchEvent.recordCost c1,
          OrchEvent.rollback "validation failure",
          OrchEvent.checkpoint 2, OrchEvent.execute 2, OrchEvent.recordCost c2,
          OrchEvent.rollback "validation failure",
          OrchEvent.checkpoint 3, OrchEvent.execute 3, OrchEvent.recordCost c3,
          OrchEvent.rollback "non-retryable error cleanup"],
         RetryOutcome.fatalError (validationExhaustedError description)) ∧
      OrchEvent.commitDone ∉ (runClaudePromptWithRetry description true envs).1 := by
  refine ⟨(runClaudePrompt (envs 1)).recorded, (runClaudePrompt (envs 2)).recorded,
    (runClaudePrompt (envs 3)).recorded, ?_, ?_⟩
  · simp only [runClaudePromptWithRetry, retryGo, hexec, hval, validateAgentOutput_false,
      maxRetries, isRetryableError, validationExhaustedError, Bool.false_eq_true,
      Bool.not_false, if_true, if_false]
    simp
  · simp only [runClaudePromptWithRetry, retryGo, hexec, hval, validateAgentOutput_false,
      maxRetries, isRetryableError, validationExhaustedError]
    simp

/-- Witness for C2: every attempt executes successfully (result message of cost 5) and
the validator always rejects. -/
theorem claim_C2_witness :
    (∀ i : Nat, (runClaudePrompt ((fun _ => envExecOk) i)).res.success = true) ∧
    (∀ i : Nat, ((fun _ => envExecOk) i : AttemptEnv).validatorPasses = false) ∧
    (∃ c1 c2 c3,
      runClaudePromptWithRetry "recon" true (fun _ => envExecOk) =
        ([OrchEvent.checkpoint 1, OrchEvent.execute 1, OrchEvent.recordCost c1,
          OrchEvent.rollback "validation failure",
          OrchEvent.checkpoint 2, OrchEvent.execute 2, OrchEvent.recordCost c2,
          OrchEvent.rollback "validation failure",
          OrchEvent.checkpoint 3, OrchEvent.execute 3, OrchEvent.recordCost c3,
          OrchEvent.rollback "non-retryable error cleanup"],
         RetryOutcome.fatalError (validationExhaustedError "recon")) ∧
      OrchEvent.commitDone ∉ (runClaudePromptWithRetry "recon" true (fun _ => envExecOk)).1) :=
  ⟨fun _ => (by decide : (runClaudePrompt envExecOk).res.success = true),
   fun _ => (by decide : envExecOk.validatorPasses = false),
    claim_C2 "recon" (fun _ => envExecOk)
      (fun _ => (by decide : (runClaudePrompt envExecOk).res.success = true))
      (fun _ => (by decide : envExecOk.validatorPasses = false))⟩

/-- C3: the claim requires a first execution failing with a non-retryable error to cause
exactly 1 attempt and 1 rollback, then fatal propagation. The code violates this:
`runClaudePrompt` converts the error into a `success: false` resolution (correctly
classified non-retryable), but `runClaudePromptWithRetry` has no branch for
`result.success === false` — the failed result is discarded, no rollback is performed,
all 3 attempts run, and the final `throw lastError` throws `undefined` because
`lastError` was never assigned. This theorem evaluates the embedding at such a failing
input. -/
theorem claim_C3_bug :
    ((runClaudePrompt envExecFailNonRetryable).res.success = false ∧
     (runClaudePrompt envExecFailNonRetryable).res.retryable = some false) ∧
    runClaudePromptWithRetry "recon" true (fun _ => envExecFailNonRetryable) =
      ([OrchEvent.checkpoint 1, OrchEvent.execute 1, OrchEvent.recordCost 0,
        OrchEvent.checkpoint 2, OrchEvent.execute 2, OrchEvent.recordCost 0,
        OrchEvent.checkpoint 3, OrchEvent.execute 3, OrchEvent.recordCost 0],
       RetryOutcome.fatalUndefined) ∧
    (∀ r, OrchEvent.rollback r ∉
      (runClaudePromptWithRetry "recon" true (fun _ => envExecFailNonRetryable)).1) := by
  have h : runClaudePromptWithRetry "recon" true (fun _ => envExecFailNonRetryable) =
      ([OrchEvent.checkpoint 1, OrchEvent.execute 1, OrchEvent.recordCost 0,
        OrchEvent.checkpoint 2, OrchEvent.execute 2, OrchEvent.recordCost 0,
        OrchEvent.checkpoint 3, OrchEvent.execute 3, OrchEvent.recordCost 0],
       RetryOutcome.fatalUndefined) := by decide
  refine ⟨by decide, h, ?_⟩
  intro r
  rw [h]
  simp

/-- C5: streamed assistant content containing the session-limit signal is indeed
classified non-retryable (the `PentestError('Session limit reached', 'billing', false)`
short-circuit fires and `runClaudePrompt` resolves with `retryable: false`) — but the
agent invocation does not fail immediately: because the retry loop ignores
`success: false` resolutions, attempts 2 and 3 still execute and the invocation ends by
throwing `undefined`. This theorem evaluates the embedding at such a failing input. -/
theorem claim_C5_bug :
    ((runClaudePrompt envSessionLimit).res.success = false ∧
     (runClaudePrompt envSessionLimit).res.errorMsg = some "Session limit reached" ∧
     (runClaudePrompt envSessionLimit).res.retryable = some false) ∧
    (executedAttempts
        (runClaudePromptWithRetry "recon" true (fun _ => envSessionLimit)).1 = [1, 2, 3] ∧
     (runClaudePromptWithRetry "recon" true (fun _ => envSessionLimit)).2 =
       RetryOutcome.fatalUndefined) := by decide

/-- `recordedTotal` distributes over trace concatenation. -/
theorem recordedTotal_append (l1 l2 : List OrchEvent) :
    recordedTotal (l1 ++ l2) = recordedTotal l1 + recordedTotal l2 := by
  simp [recordedTotal]

/-- `executedAttempts` distributes over trace concatenation. -/
theorem executedAttempts_append (l1 l2 : List OrchEvent) :
    executedAttempts (l1 ++ l2) = executedAttempts l1 ++ executedAttempts l2 := by
  simp [executedAttempts]

/-- `recordedTotal` on an empty trace. -/
theorem recordedTotal_nil : recordedTotal [] = 0 := rfl

/-- `executedAttempts` on an empty trace. -/
theorem executedAttempts_nil : executedAttempts [] = [] := rfl

/-- One-step unfolding of `recordedTotal`. -/
theorem recordedTotal_cons (e : OrchEvent) (l : List OrchEvent) :
    recordedTotal (e :: l) =
      (match e with | OrchEvent.recordCost n => n | _ => 0) + recordedTotal l := by
  simp [recordedTotal]

/-- One-step unfolding of `executedAttempts`. -/
theorem executedAttempts_cons (e : OrchEvent) (l : List OrchEvent) :
    executedAttempts (e :: l) =
      (match e with | OrchEvent.execute i => [i] | _ => []) ++ executedAttempts l := by
  cases e <;> simp [executedAttempts]

/-- Cost bookkeeping of the message loop, from a zero-cost start: while no result
message has arrived (including when the loop throws) all three cost counters stay 0;
once a result message arrives, the amount recorded into `costResults.total` equals both
`totalCost` and `partialCost`; and a thrown loop never captured a result. -/
theorem processStream_costs (stream : List StreamMsg) :
    ∀ st : PromptState, st.totalCost = 0 → st.partCost = 0 → st.recordedCost = 0 →
      ((processStream stream st).thrown.isSome →
        (processStream stream st).resultVal = none) ∧
      ((processStream stream st).resultVal = none →
        (processStream stream st).st.totalCost = 0 ∧
        (processStream stream st).st.partCost = 0 ∧
        (processStream stream st).st.recordedCost = 0) ∧
      (∀ r, (processStream stream st).resultVal = some r →
        (processStream stream st).st.recordedCost = (processStream stream st).st.totalCost ∧
        (processStream stream st).st.recordedCost = (processStream stream st).st.partCost) := by
  induction stream with
  | nil =>
    intro st h1 h2 h3
    exact ⟨fun h => rfl, fun _ => ⟨h1, h2, h3⟩, fun r hr => by simp [processStream] at hr⟩
  | cons msg rest ih =>
    intro st h1 h2 h3
    cases msg with
    | assistant c =>
      simp only [processStream]
      split
      · exact ⟨fun _ => rfl, fun _ => ⟨h1, h2, h3⟩, fun r hr => by simp at hr⟩
      · split
        · exact ih _ h1 h2 h3
        · exact ih _ h1 h2 h3
    | resultMsg r c =>
      refine ⟨fun h => by simp [processStream] at h, fun h => by simp [processStream] at h,
        fun r2 hr => ?_⟩
      simp only [processStream]
      rw [h3]
      simp
    | systemInit => exact ih st h1 h2 h3
    | userEcho => exact ih st h1 h2 h3
    | toolUse => exact ih st h1 h2 h3
    | toolResult => exact ih st h1 h2 h3
    | otherMsg => exact ih st h1 h2 h3

/-- One attempt's contribution to `costResults.total` equals the cost the resolved
attempt object reports (its `cost` field, which on a failed attempt is the partial
cost). -/
theorem runClaudePrompt_recorded_eq_cost (env : AttemptEnv) :
    (runClaudePrompt env).recorded = (runClaudePrompt env).res.cost := by
  have h := processStream_costs env.stream initialPromptState rfl rfl rfl
  unfold runClaudePrompt
  rcases hth : (processStream env.stream initialPromptState).thrown with _ | err
  · rcases hres : (processStream env.stream initialPromptState).resultVal with _ | r
    · rcases env.streamError with _ | serr <;>
        · obtain ⟨-, hzero, -⟩ := h
          obtain ⟨hz1, hz2, hz3⟩ := hzero hres
          simp [hth, hres, hz1, hz2, hz3]
    · obtain ⟨-, -, hsome⟩ := h
      obtain ⟨hq1, -⟩ := hsome r hres
      simp [hth, hres, hq1]
  · obtain ⟨hts, hzero, -⟩ := h
    obtain ⟨-, hz2, hz3⟩ := hzero (by simp [hth] at hts ⊢; exact hts)
    simp [hth, hz2, hz3]

/-- Trace-level cost accounting of the retry loop: the total recorded cost equals the
sum of each executed attempt's reported cost. -/
theorem retryGo_cost (description : String) (hasValidator : Bool)
    (envs : Nat → AttemptEnv) :
    ∀ (attempts : List Nat) (lastError : Option JsError),
      recordedTotal (retryGo description hasValidator envs attempts lastError).1 =
        ((executedAttempts (retryGo description hasValidator envs attempts lastError).1).map
          (fun i => (runClaudePrompt (envs i)).res.cost)).sum := by
  intro attempts
  induction attempts with
  | nil => intro lastError; simp [retryGo, recordedTotal, executedAttempts]
  | cons a rest ih =>
    intro lastError
    simp only [retryGo]
    split
    · split
      · simp [recordedTotal_cons, executedAttempts_cons, recordedTotal_nil,
          executedAttempts_nil, runClaudePrompt_recorded_eq_cost]
      · split
        · simp only [recordedTotal_append, executedAttempts_append, recordedTotal_cons,
            executedAttempts_cons, recordedTotal_nil, executedAttempts_nil, ih,
            List.map_append, List.sum_append]
          simp [runClaudePrompt_recorded_eq_cost]
        · split
          · simp [recordedTotal_cons, executedAttempts_cons, recordedTotal_nil,
              executedAttempts_nil, recordedTotal_append, executedAttempts_append,
              runClaudePrompt_recorded_eq_cost]
          · simp [recordedTotal_cons, executedAttempts_cons, recordedTotal_nil,
              executedAttempts_nil, recordedTotal_append, executedAttempts_append,
              runClaudePrompt_recorded_eq_cost]
    · simp only [recordedTotal_append, executedAttempts_append, recordedTotal_cons,
        executedAttempts_cons, recordedTotal_nil, executedAttempts_nil, ih,
        List.map_append, List.sum_append]
      simp [runClaudePrompt_recorded_eq_cost]

/-- C8: over one agent run through the retry orchestrator, the total cost recorded into
`costResults.total` equals the sum, over all executed attempts, of that attempt's
reported cost (`cost` on success, which equals `partialCost`; the partial cost on
failure) — failed attempts included. -/
theorem claim_C8 (description : String) (hasValidator : Bool) (envs : Nat → AttemptEnv) :
    recordedTotal (runClaudePromptWithRetry description hasValidator envs).1 =
      ((executedAttempts (runClaudePromptWithRetry description hasValidator envs).1).map
        (fun i => (runClaudePrompt (envs i)).res.cost)).sum :=
  retryGo_cost description hasValidator envs [1, 2, 3] none

/-- A successful `find?` splits its list into a prefix of rejected elements, the found
element, and a remainder. -/
theorem find?_split {α : Type} (p : α → Bool) :
    ∀ (l : List α) (a : α), l.find? p = some a →
      ∃ l1 l2, l = l1 ++ a :: l2 ∧ (∀ b ∈ l1, p b = false) ∧ p a = true := by
  intro l
  induction l with
  | nil => intro a h; simp at h
  | cons x xs ih =>
    intro a h
    by_cases hx : p x = true
    · rw [List.find?_cons_of_pos _ hx] at h
      obtain rfl : x = a := by simpa using h
      exact ⟨[], xs, rfl, by simp, hx⟩
    · rw [List.find?_cons_of_neg _ (by simpa using hx)] at h
      obtain ⟨l1, l2, rfl, h1, h2⟩ := ih a h
      refine ⟨x :: l1, l2, rfl, ?_, h2⟩
      intro b hb
      rcases List.mem_cons.mp hb with rfl | hb2
      · simpa using hx
      · exact h1 b hb2

/-- C6: `getNextAgent` returns the first agent of the fixed ordered catalog whose name
is not in `completedAgents` (in particular, always an agent not in `completedAgents`),
and returns null exactly when `completedAgents` covers the whole catalog. -/
theorem claim_C6 (s : Session) :
    (∀ a, getNextAgent s = some a →
      a.name ∉ s.completedAgents ∧
      ∃ l1 l2, AGENTS = l1 ++ a :: l2 ∧ ∀ b ∈ l1, b.name ∈ s.completedAgents) ∧
    (getNextAgent s = none ↔ ∀ a ∈ AGENTS, a.name ∈ s.completedAgents) := by
  constructor
  · intro a ha
    obtain ⟨l1, l2, heq, h1, h2⟩ := find?_split _ AGENTS a ha
    refine ⟨?_, l1, l2, heq, ?_⟩
    · have h2b : s.completedAgents.contains a.name = false := by simpa using h2
      simpa [List.contains, List.elem_iff] using h2b
    · intro b hb
      have := h1 b hb
      simpa [List.contains, List.elem_iff] using this
  · unfold getNextAgent
    rw [List.find?_eq_none]
    constructor
    · intro h a ha
      have := h a ha
      simpa [List.contains, List.elem_iff] using this
    · intro h a ha
      simpa [List.contains, List.elem_iff] using h a ha

/-- Witness for C6: with pre-recon and recon completed, the next agent is the first
analysis agent. -/
theorem claim_C6_witness :
    getNextAgent sessionExample = some ⟨"injection-vuln"⟩ ∧
    ((⟨"injection-vuln"⟩ : Agent).name ∉ sessionExample.completedAgents ∧
     ∃ l1 l2, AGENTS = l1 ++ (⟨"injection-vuln"⟩ : Agent) :: l2 ∧
       ∀ b ∈ l1, b.name ∈ sessionExample.completedAgents) :=
  ⟨by decide, (claim_C6 sessionExample).1 ⟨"injection-vuln"⟩ (by decide)⟩

/-- Membership in the fueled first-occurrence dedup agrees with list membership as long
as the fuel covers the list length. -/
theorem mem_jsSetDedupAux (a : String) :
    ∀ (fuel : Nat) (l : List String), l.length ≤ fuel →
      (a ∈ jsSetDedupAux fuel l ↔ a ∈ l) := by
  intro fuel
  induction fuel with
  | zero =>
    intro l hl
    have : l = [] := List.eq_nil_of_length_eq_zero (Nat.le_zero.mp hl)
    subst this
    simp [jsSetDedupAux]
  | succ n ih =>
    intro l hl
    cases l with
    | nil => simp [jsSetDedupAux]
    | cons x xs =>
      have hlen : (xs.filter fun y => y ≠ x).length ≤ n :=
        le_trans (List.length_filter_le _ _) (by simpa using hl)
      by_cases hax : a = x
      · subst hax
        simp [jsSetDedupAux]
      · simp only [jsSetDedupAux, List.mem_cons, ih _ hlen, List.mem_filter]
        simp [hax]

/-- Membership in `jsSetDedup` agrees with membership in the original list. -/
theorem mem_jsSetDedup (a : String) (l : List String) : a ∈ jsSetDedup l ↔ a ∈ l :=
  mem_jsSetDedupAux a l.length l le_rfl

/-- The keys of a spread-updated object are the old keys plus possibly `k`. -/
theorem objectSpreadSet_keys (m : List (String × String)) (k v : String) :
    ∀ k2 ∈ (objectSpreadSet m k v).map Prod.fst, k2 ∈ m.map Prod.fst ∨ k2 = k := by
  intro k2 h
  unfold objectSpreadSet at h
  split at h
  · simp only [List.map_map, List.mem_map] at h
    obtain ⟨p, hp, hpk⟩ := h
    by_cases hk : p.1 = k
    · right
      simpa [hk] using hpk.symm
    · left
      rw [List.mem_map]
      exact ⟨p, hp, by simpa [hk] using hpk⟩
  · simp only [List.map_append, List.mem_append, List.map_cons, List.mem_cons] at h
    rcases h with h | h
    · exact Or.inl h
    · simp only [List.map_nil, List.not_mem_nil, or_false] at h
      exact Or.inr h

/-- C7: `updateSessionProgress` preserves the session invariant: afterwards the agent is
in `completedAgents` and not in `failedAgents`; if the two sets were disjoint before,
they stay disjoint (every agent name in at most one of them); and any checkpoint key is
either an old key or the updated agent's own name, which is then simultaneously present
in `completedAgents`. -/
theorem claim_C7 (s : Session) (agentName : String) (commitHash : Option String)
    (hdisj : ∀ n, n ∈ s.completedAgents → n ∉ s.failedAgents) :
    agentName ∈ (updateSessionProgress s agentName commitHash).completedAgents ∧
    agentName ∉ (updateSessionProgress s agentName commitHash).failedAgents ∧
    (∀ n, n ∈ (updateSessionProgress s agentName commitHash).completedAgents →
      n ∉ (updateSessionProgress s agentName commitHash).failedAgents) ∧
    (∀ k, k ∈ (updateSessionProgress s agentName commitHash).checkpoints.map Prod.fst →
      k ∈ s.checkpoints.map Prod.fst ∨
        (k = agentName ∧
          agentName ∈ (updateSessionProgress s agentName commitHash).completedAgents)) := by
  have hmemA : agentName ∈ (updateSessionProgress s agentName commitHash).completedAgents := by
    simp only [updateSessionProgress, mem_jsSetDedup]
    simp
  refine ⟨hmemA, ?_, ?_, ?_⟩
  · simp [updateSessionProgress, List.mem_filter]
  · intro n hn
    simp only [updateSessionProgress, mem_jsSetDedup, List.mem_append,
      List.mem_singleton] at hn
    simp only [updateSessionProgress, List.mem_filter, decide_eq_true_eq, not_and]
    intro hnf
    rcases hn with hn | rfl
    · exact absurd hnf (hdisj n hn)
    · intro hne
      exact absurd rfl hne
  · intro k hk
    rcases hc : commitHash with _ | h
    · left
      simpa [updateSessionProgress, hc] using hk
    · simp only [updateSessionProgress, hc] at hk
      rcases objectSpreadSet_keys s.checkpoints agentName h k hk with hold | rfl
      · exact Or.inl hold
      · exact Or.inr ⟨rfl, hmemA⟩

/-- Witness for C7 on a concrete session whose completed and failed sets are disjoint
(xss-vuln previously failed, now completes with a checkpoint). -/
theorem claim_C7_witness :
    (∀ n, n ∈ sessionExample.completedAgents → n ∉ sessionExample.failedAgents) ∧
    ("xss-vuln" ∈ (updateSessionProgress sessionExample "xss-vuln"
        (some "deadbeef")).completedAgents ∧
     "xss-vuln" ∉ (updateSessionProgress sessionExample "xss-vuln"
        (some "deadbeef")).failedAgents ∧
     (∀ n, n ∈ (updateSessionProgress sessionExample "xss-vuln"
          (some "deadbeef")).completedAgents →
       n ∉ (updateSessionProgress sessionExample "xss-vuln" (some "deadbeef")).failedAgents) ∧
     (∀ k, k ∈ (updateSessionProgress sessionExample "xss-vuln"
          (some "deadbeef")).checkpoints.map Prod.fst →
       k ∈ sessionExample.checkpoints.map Prod.fst ∨
         (k = "xss-vuln" ∧
           "xss-vuln" ∈ (updateSessionProgress sessionExample "xss-vuln"
              (some "deadbeef")).completedAgents))) :=
  ⟨by decide, claim_C7 sessionExample "xss-vuln" (some "deadbeef") (by decide)⟩

/-- C9: the claim requires the SIGINT handler to perform a best-effort rollback of any
in-flight attempt before exiting; the handler in shannon.mjs instead logs
"cleaning up..." and calls `process.exit(0)` immediately — it contains no rollback step
of any kind, and its last action is the exit. The same holds for SIGTERM. -/
theorem claim_C9_bug :
    sigintHandlerSteps =
      [MainStep.logLine "⚠️ Received SIGINT, cleaning up...", MainStep.exitProcess 0] ∧
    (∀ r, MainStep.rollbackWorkspace r ∉ sigintHandlerSteps) ∧
    sigintHandlerSteps.getLast? = some (MainStep.exitProcess 0) ∧
    (∀ r, MainStep.rollbackWorkspace r ∉ sigtermHandlerSteps) := by
  refine ⟨rfl, ?_, rfl, ?_⟩ <;>
    · intro r
      simp [sigintHandlerSteps, sigtermHandlerSteps]

end Shannon

